import Mathlib

/-!
Verification of the conversion logic of the `currency-converter` app
(`src/app.py`), a small Streamlit utility that converts an amount between
currencies, preferring a live rate lookup and falling back to a fixed
offline rate table.

Modelling choices:
* Amounts and rates are rationals (`ℚ`); Python float literals such as
  `1.08` are embedded as the exact rationals they denote in the source text.
* Python dict lookups that may raise `KeyError` become `Option`-valued
  lookups on an association list kept in source order.
* The remote HTTP service is an explicit parameter: a transport/parse
  failure is `none`, a well-formed JSON response is `some` of a record.
* The two Streamlit button/checkbox handlers become pure functions from
  (options, service response, inputs) to a report value, paired with the
  number of live-service requests the handler issues, so that "the live
  resolver is never invoked" is a provable statement.
-/

namespace CurrencyConverter

/-- The fixed enumerated set of 26 currency codes (`CURRENCIES` in app.py). -/
def CURRENCIES : List String :=
  ["USD","EUR","GBP","JPY","AUD","CAD","CHF","CNY","INR","PKR","SGD","NZD",
   "SEK","NOK","RUB","BRL","ZAR","AED","SAR","MXN","TRY","HKD","IDR","THB",
   "VND","ILS"]

/-- The offline fallback table (`OFFLINE_RATES` in app.py): USD value of one
unit of each currency, as exact rationals. -/
def OFFLINE_RATES : List (String × ℚ) :=
  [("USD", 1.0), ("EUR", 1.08), ("GBP", 1.27), ("JPY", 0.0068),
   ("AUD", 0.63), ("CAD", 0.74), ("CHF", 1.09), ("CNY", 0.14),
   ("INR", 0.012), ("PKR", 0.0033), ("SGD", 0.74), ("NZD", 0.59),
   ("SEK", 0.092), ("NOK", 0.093), ("RUB", 0.012), ("BRL", 0.19),
   ("ZAR", 0.049), ("AED", 0.27), ("SAR", 0.27), ("MXN", 0.056),
   ("TRY", 0.034), ("HKD", 0.128), ("IDR", 0.000062), ("THB", 0.027),
   ("VND", 0.000042), ("ILS", 0.27)]

/-- `offline_convert` from app.py: `amount * OFFLINE_RATES[frm]` converts to
USD, then division by `OFFLINE_RATES[to]` converts to the target. A missing
key (Python `KeyError`) is `none`; the `frm` lookup happens first, as in the
source. -/
def offline_convert (amount : ℚ) (frm «to» : String) : Option ℚ :=
  match OFFLINE_RATES.lookup frm with
  | none => none
  | some rateFrm =>
    match OFFLINE_RATES.lookup «to» with
    | none => none
    | some rateTo => some (amount * rateFrm / rateTo)

/-- A well-formed JSON response of the remote `/convert` endpoint: the
`result` field may be absent/null (`none`), plus optional rate and date
metadata. -/
structure ConvertResponse where
  result : Option ℚ
  rate : Option ℚ
  date : Option String
deriving DecidableEq

/-- A well-formed JSON response of the remote `/latest?base=` endpoint: a
rate mapping (possibly missing some currencies) and an optional date. -/
structure LatestResponse where
  rates : List (String × ℚ)
  date : Option String
deriving DecidableEq

/-- `try_live_convert` from app.py: the transport layer either fails
(`none`, a raised exception in Python) or delivers a parsed response; the
function additionally raises (`none`) when the response's `result` field is
absent. -/
def try_live_convert (resp : Option ConvertResponse) : Option ConvertResponse :=
  match resp with
  | none => none
  | some data => if data.result.isSome then some data else none

/-- `try_live_table` from app.py: on transport failure (`none`) the
exception propagates; on a response, build one row per enumerated currency:
the base maps to the amount itself, a code missing from the response's rate
mapping maps to `none` (rendered "N/A"), any other code maps to
`amount * rate`. Returns the as-of date together with the rows. -/
def try_live_table (amount : ℚ) (frm : String) (resp : Option LatestResponse) :
    Option (Option String × List (String × Option ℚ)) :=
  match resp with
  | none => none
  | some data =>
    some (data.date,
      CURRENCIES.map fun cur =>
        (cur, if cur = frm then some amount
              else match data.rates.lookup cur with
                   | none => none
                   | some r => some (amount * r)))

/-- What the convert-button handler displays for one request. -/
inductive Report where
  /-- `st.success(... (live rates))`: live result shown. -/
  | liveSuccess (v : ℚ)
  /-- `st.success(... (offline rates))`: offline-sourced result shown. -/
  | offlineSuccess (v : ℚ)
  /-- `st.error("Offline conversion failed: ...")` in offline-only mode. -/
  | offlineOnlyFailure
  /-- `st.error("Both live and offline conversion failed: ...")`. -/
  | combinedFailure
deriving DecidableEq

/-- The `if convert_btn:` handler from app.py, returning the displayed
report together with the number of live-service requests issued. In
offline-only mode only `offline_convert` runs; otherwise `try_live_convert`
is attempted once and, on failure, `offline_convert` is the fallback. -/
def convert_btn_handler (use_offline_only : Bool)
    (liveResp : Option ConvertResponse) (amount : ℚ) (frm «to» : String) :
    Report × Nat :=
  if use_offline_only then
    match offline_convert amount frm «to» with
    | some v => (Report.offlineSuccess v, 0)
    | none => (Report.offlineOnlyFailure, 0)
  else
    match try_live_convert liveResp with
    | some data => (Report.liveSuccess (data.result.getD 0), 1)
    | none =>
      match offline_convert amount frm «to» with
      | some v => (Report.offlineSuccess v, 1)
      | none => (Report.combinedFailure, 1)

/-- What the show-table handler displays. -/
inductive TableReport where
  /-- A table of 26 rows from the live snapshot, with its as-of date. -/
  | liveTable (date : Option String) (rows : List (String × Option ℚ))
  /-- A table of 26 rows computed from offline rates. -/
  | offlineTable (rows : List (String × Option ℚ))
deriving DecidableEq

/-- The `if show_table:` handler from app.py, returning the displayed table
together with the number of live-service requests issued. In offline-only
mode the rows come from `offline_convert` alone; otherwise `try_live_table`
is attempted once, falling back to the offline rows on failure. -/
def show_table_handler (use_offline_only : Bool)
    (latestResp : Option LatestResponse) (amount : ℚ) (frm : String) :
    TableReport × Nat :=
  if use_offline_only then
    (TableReport.offlineTable
      (CURRENCIES.map fun cur => (cur, offline_convert amount frm cur)), 0)
  else
    match try_live_table amount frm latestResp with
    | some (date, rows) => (TableReport.liveTable date rows, 1)
    | none =>
      (TableReport.offlineTable
        (CURRENCIES.map fun cur => (cur, offline_convert amount frm cur)), 1)

end CurrencyConverter

namespace CurrencyConverter

/-! ### Helper lemmas -/

/-- A successful association-list lookup returns a stored pair. -/
theorem mem_of_lookup_eq_some {l : List (String × ℚ)} {k : String} {v : ℚ}
    (h : l.lookup k = some v) : (k, v) ∈ l := by
  induction l with
  | nil => simp [List.lookup] at h
  | cons p l ih =>
    obtain ⟨a, b⟩ := p
    simp only [List.lookup] at h
    cases hbeq : (k == a) with
    | true =>
      rw [hbeq] at h
      simp only [Option.some.injEq] at h
      subst h
      have hk : k = a := by simpa using hbeq
      subst hk
      exact List.mem_cons_self _ _
    | false =>
      rw [hbeq] at h
      exact List.mem_cons_of_mem _ (ih h)

/-- Every value stored in the offline table is strictly positive. -/
theorem table_rates_pos : ∀ p ∈ OFFLINE_RATES, 0 < p.2 := by
  norm_num [OFFLINE_RATES]

/-- Any rate produced by a successful table lookup is strictly positive. -/
theorem lookup_rate_pos {c : String} {r : ℚ}
    (h : OFFLINE_RATES.lookup c = some r) : 0 < r :=
  table_rates_pos _ (mem_of_lookup_eq_some h)

/-- Every enumerated currency has a strictly positive offline-table entry. -/
theorem mem_has_pos_rate :
    ∀ c ∈ CURRENCIES, ∃ r, OFFLINE_RATES.lookup c = some r ∧ 0 < r := by
  intro c hc
  fin_cases hc <;> exact ⟨_, rfl, by norm_num⟩

/-- Looking up a key of `l` in the row list built by mapping `f` over `l`
yields `f` applied to that key. -/
theorem lookup_map_row {l : List String} {cur : String}
    (f : String → Option ℚ) (h : cur ∈ l) :
    (l.map fun c => (c, f c)).lookup cur = some (f cur) := by
  induction l with
  | nil => cases h
  | cons a l ih =>
    rcases List.mem_cons.mp h with h | h
    · subst h
      simp [List.lookup]
    · by_cases hca : cur = a
      · subst hca
        simp [List.lookup]
      · have hbeq : (cur == a) = false := by simpa using hca
        simp [List.lookup, hbeq, ih h]

end CurrencyConverter

namespace CurrencyConverter

/-! ### Claim theorems -/

/-- C1: for every pair of currency codes `f`, `t` present in the offline
rate table and every non-negative amount `a`, `offline_convert a f t`
equals `a * table[f] / table[t]`: the amount is multiplied by the USD unit
value of `f` and then divided by the USD unit value of `t`. -/
theorem offline_convert_eq_mul_div (a : ℚ) (f t : String) (rf rt : ℚ)
    (hf : OFFLINE_RATES.lookup f = some rf)
    (ht : OFFLINE_RATES.lookup t = some rt) (ha : 0 ≤ a) :
    offline_convert a f t = some (a * rf / rt) := by
  simp [offline_convert, hf, ht]

/-- Witness for C1 at `a = 1`, `f = "USD"`, `t = "PKR"`: the stated table
rates are `1.0` and `0.0033` and the conversion yields `1 * 1.0 / 0.0033 =
10000/33 ≈ 303.03`. -/
theorem offline_convert_eq_mul_div_witness :
    OFFLINE_RATES.lookup "USD" = some 1.0 ∧
    OFFLINE_RATES.lookup "PKR" = some 0.0033 ∧
    (0 : ℚ) ≤ 1 ∧
    offline_convert 1 "USD" "PKR" = some (10000 / 33) := by
  refine ⟨rfl, rfl, by norm_num, ?_⟩
  rw [offline_convert_eq_mul_div 1 "USD" "PKR" 1.0 0.0033 rfl rfl (by norm_num)]
  norm_num

/-- C6: `offline_convert` fails exactly when `frm` or `to` is outside the
offline table, and succeeds (returns a value) exactly when both lookups
succeed — there is no other failure mode in the pure arithmetic. -/
theorem offline_convert_failure_iff (a : ℚ) (f t : String) :
    (offline_convert a f t = none ↔
      OFFLINE_RATES.lookup f = none ∨ OFFLINE_RATES.lookup t = none) ∧
    ((offline_convert a f t).isSome ↔
      (OFFLINE_RATES.lookup f).isSome ∧ (OFFLINE_RATES.lookup t).isSome) := by
  unfold offline_convert
  cases OFFLINE_RATES.lookup f <;> cases OFFLINE_RATES.lookup t <;> simp

/-- C7: the offline rate table maps every one of the 26 enumerated currency
codes to a strictly positive rational, and USD maps to exactly 1. (In this
embedding the table is a constant definition, so the read-only/no-mutation
part of the invariant holds by construction: no operation of the model
rebinds it.) -/
theorem offline_rates_invariant :
    (∀ c ∈ CURRENCIES, ∃ r, OFFLINE_RATES.lookup c = some r ∧ 0 < r) ∧
    OFFLINE_RATES.lookup "USD" = some 1 := by
  exact ⟨mem_has_pos_rate, by norm_num [OFFLINE_RATES, List.lookup]⟩

/-- Witness for C7 instantiated at the code "PKR". -/
theorem offline_rates_invariant_witness :
    "PKR" ∈ CURRENCIES ∧ (∃ r, OFFLINE_RATES.lookup "PKR" = some r ∧ 0 < r) :=
  ⟨by decide, offline_rates_invariant.1 "PKR" (by decide)⟩

/-- C8: for a fixed pair of table-member codes, `offline_convert` is linear
in the amount: doubling the amount doubles the result. -/
theorem offline_convert_linear (a : ℚ) (f t : String) (rf rt : ℚ)
    (hf : OFFLINE_RATES.lookup f = some rf)
    (ht : OFFLINE_RATES.lookup t = some rt) (ha : 0 ≤ a) :
    ∃ v, offline_convert a f t = some v ∧
      offline_convert (2 * a) f t = some (2 * v) := by
  refine ⟨a * rf / rt, by simp [offline_convert, hf, ht], ?_⟩
  simp only [offline_convert, hf, ht]
  ring_nf

/-- Witness for C8 at `a = 3`, `f = "EUR"`, `t = "JPY"`. -/
theorem offline_convert_linear_witness :
    ∃ v, offline_convert 3 "EUR" "JPY" = some v ∧
      offline_convert (2 * 3) "EUR" "JPY" = some (2 * v) :=
  offline_convert_linear 3 "EUR" "JPY" 1.08 0.0068 rfl rfl (by norm_num)

/-- C9: converting an amount from a table-member currency to itself returns
the amount. In this exact-rational embedding the multiply-then-divide round
trip cancels exactly (the table rate is nonzero), which in particular puts
the result within any floating-point tolerance of the input. -/
theorem offline_convert_self (a : ℚ) (c : String) (r : ℚ)
    (hc : OFFLINE_RATES.lookup c = some r) (ha : 0 ≤ a) :
    offline_convert a c c = some a := by
  have hr : 0 < r := lookup_rate_pos hc
  simp only [offline_convert, hc]
  rw [mul_div_assoc, div_self hr.ne', mul_one]

/-- Witness for C9 at `a = 7`, `c = "EUR"`. -/
theorem offline_convert_self_witness :
    offline_convert 7 "EUR" "EUR" = some 7 :=
  offline_convert_self 7 "EUR" 1.08 rfl (by norm_num)

/-- C10: the division inside `offline_convert` is never a division by zero —
for any two of the 26 enumerated codes both table lookups succeed, the
divisor is nonzero (strictly positive), and the function returns a value
for every rational amount. -/
theorem offline_convert_total_no_zero_div (a : ℚ) (f t : String)
    (hf : f ∈ CURRENCIES) (ht : t ∈ CURRENCIES) :
    ∃ rf rt, OFFLINE_RATES.lookup f = some rf ∧
      OFFLINE_RATES.lookup t = some rt ∧ rt ≠ 0 ∧
      offline_convert a f t = some (a * rf / rt) := by
  obtain ⟨rf, hrf, _⟩ := mem_has_pos_rate f hf
  obtain ⟨rt, hrt, hpos⟩ := mem_has_pos_rate t ht
  exact ⟨rf, rt, hrf, hrt, hpos.ne', by simp [offline_convert, hrf, hrt]⟩

/-- Witness for C10 at `a = -5` (any rational amount), `f = "VND"`,
`t = "IDR"`. -/
theorem offline_convert_total_no_zero_div_witness :
    "VND" ∈ CURRENCIES ∧ "IDR" ∈ CURRENCIES ∧
    (∃ rf rt, OFFLINE_RATES.lookup "VND" = some rf ∧
      OFFLINE_RATES.lookup "IDR" = some rt ∧ rt ≠ 0 ∧
      offline_convert (-5) "VND" "IDR" = some ((-5) * rf / rt)) :=
  ⟨by decide, by decide,
    offline_convert_total_no_zero_div (-5) "VND" "IDR" (by decide) (by decide)⟩

end CurrencyConverter

namespace CurrencyConverter

/-- C2: in non-offline-only mode, when the live conversion attempt fails
the handler reports the offline-sourced result `offline_convert a f t`
(`Report.offlineSuccess`), and when that offline attempt also fails it
reports a single combined failure. -/
theorem convert_btn_fallback (liveResp : Option ConvertResponse)
    (a : ℚ) (f t : String) (hlive : try_live_convert liveResp = none) :
    (convert_btn_handler false liveResp a f t).1 =
      match offline_convert a f t with
      | some v => Report.offlineSuccess v
      | none => Report.combinedFailure := by
  cases h : offline_convert a f t <;>
    simp [convert_btn_handler, hlive, h]

/-- Witness for C2: with a failing transport (`none`) the handler for
1 USD → PKR reports the offline result `10000/33` as offline-sourced. -/
theorem convert_btn_fallback_witness :
    try_live_convert none = none ∧
    (convert_btn_handler false none 1 "USD" "PKR").1 =
      Report.offlineSuccess (1 * 1.0 / 0.0033) := by
  refine ⟨rfl, ?_⟩
  rw [convert_btn_fallback none 1 "USD" "PKR" rfl]
  rfl

/-- C3: in offline-only mode neither handler issues any live-service
request (the request count is 0, whatever response the live service would
have given), and each reports exactly the offline computation: the
convert button reports `offline_convert`'s result or its failure, and the
table view shows the 26 offline rows. -/
theorem offline_only_never_invokes_live (liveResp : Option ConvertResponse)
    (latestResp : Option LatestResponse) (a : ℚ) (f t : String) :
    (convert_btn_handler true liveResp a f t).2 = 0 ∧
    (convert_btn_handler true liveResp a f t).1 =
      (match offline_convert a f t with
       | some v => Report.offlineSuccess v
       | none => Report.offlineOnlyFailure) ∧
    (show_table_handler true latestResp a f).2 = 0 ∧
    (show_table_handler true latestResp a f).1 =
      TableReport.offlineTable
        (CURRENCIES.map fun cur => (cur, offline_convert a f cur)) := by
  refine ⟨?_, ?_, ?_, ?_⟩ <;>
    cases h : offline_convert a f t <;>
      simp [convert_btn_handler, show_table_handler, h]

/-- C4: on a well-formed live rates response, the snapshot maps each
enumerated currency code as follows: the base code maps to the input
amount itself (not read from the response), a code missing from the
response's rate mapping maps to the "unavailable" marker `none` while the
snapshot as a whole still succeeds, and any other code maps to the amount
multiplied by the returned rate. -/
theorem try_live_table_row_values (a : ℚ) (frm : String)
    (data : LatestResponse) (cur : String) (hcur : cur ∈ CURRENCIES) :
    ∃ rows, try_live_table a frm (some data) = some (data.date, rows) ∧
      rows.lookup cur = some (if cur = frm then some a
        else match data.rates.lookup cur with
             | none => none
             | some r => some (a * r)) := by
  refine ⟨_, rfl, ?_⟩
  exact lookup_map_row _ hcur

/-- Witness for C4: base "USD", a response quoting only "PKR" at 278.5;
the "PKR" row carries `2 * 278.5`, the base row "USD" carries the amount 2
itself, and the absent "EUR" row carries the unavailable marker. -/
theorem try_live_table_row_values_witness :
    "PKR" ∈ CURRENCIES ∧
    (∃ rows,
      try_live_table 2 "USD" (some ⟨[("PKR", 278.5)], some "2024-01-01"⟩) =
        some (some "2024-01-01", rows) ∧
      rows.lookup "PKR" = some (some (2 * 278.5))) := by
  refine ⟨by decide, ?_⟩
  obtain ⟨rows, h1, h2⟩ :=
    try_live_table_row_values 2 "USD" ⟨[("PKR", 278.5)], some "2024-01-01"⟩
      "PKR" (by decide)
  refine ⟨rows, h1, ?_⟩
  rw [h2]
  rfl

/-- C5: on a well-formed live rates response the snapshot succeeds with
exactly 26 rows, one per enumerated currency code in order, each carrying
either a numeric amount or the explicit "unavailable" marker; no row is
omitted. -/
theorem try_live_table_complete (a : ℚ) (frm : String)
    (data : LatestResponse) :
    ∃ rows, try_live_table a frm (some data) = some (data.date, rows) ∧
      rows.length = 26 ∧ rows.map Prod.fst = CURRENCIES ∧
      ∀ row ∈ rows, row.2 = none ∨ ∃ v, row.2 = some v := by
  refine ⟨_, rfl, ?_, ?_, ?_⟩
  · simp [CURRENCIES]
  · simp [CURRENCIES]
  · intro row hrow
    cases row.2 with
    | none => exact Or.inl rfl
    | some v => exact Or.inr ⟨v, rfl⟩

end CurrencyConverter
